import Mathlib

/-!
Verification development for the AI pitching-coach backend.

The definitions below are a shallow embedding, translated from the Python
sources under `app/backend/`:

* `storage.py` — the in-memory job store (`InMemoryJobStore`), its
  `update_job` keyword signature and partial-update semantics;
* `models.py` — the `JobRecord` dataclass (note: it has round-1..4 fields
  and no round-5 fields, exactly as in the source);
* `feedback_orchestrator.py` — round-done / missing-prerequisite checks,
  the round-5 skip path, and `ensure_feedback_orchestration_started`;
* `coaching_input.py` — transcript extraction and the shared-input loader;
* `coaching_round1.py` .. `coaching_round5.py` — the `_truncate` helper,
  the failure-persistence keyword lists, and the rounds-3/4 ground-truth
  backfill helpers;
* `stt_v2.py` — `_merge_transcripts` and the progress stages emitted by
  `transcribe_v2_chirp2_from_gcs`;
* `transcription.py` — the progress writes of `process_transcription_job`;
* `metrics.py` — `compute_derived_metrics`.

Python floats are modelled as rationals (`ℚ`): every numeric literal and
comparison exercised by the theorems is exact in both representations.
Python's `str()` of a float is abstracted by `toString` on `ℚ`; only its
non-emptiness and absence of surrounding whitespace are relied upon.
-/

namespace PitchCoach

/-- Dynamic values, mirroring the JSON-ish Python objects (`None`, `bool`,
numbers, `str`, `list`, `dict`) that flow through the job store and the
round payloads. Dicts are insertion-ordered association lists. -/
inductive Json where
  | null : Json
  | bool (b : Bool) : Json
  | num (q : ℚ) : Json
  | str (s : String) : Json
  | arr (items : List Json) : Json
  | obj (fields : List (String × Json)) : Json
deriving Repr

mutual

/-- Decidable equality for `Json` (the nested inductive defeats the
deriving handler, so it is spelled out). -/
def Json.decEq : (a b : Json) → Decidable (a = b)
  | .null, .null => .isTrue rfl
  | .bool x, .bool y =>
      if h : x = y then .isTrue (by rw [h]) else .isFalse (fun hh => h (by injection hh))
  | .num x, .num y =>
      if h : x = y then .isTrue (by rw [h]) else .isFalse (fun hh => h (by injection hh))
  | .str x, .str y =>
      if h : x = y then .isTrue (by rw [h]) else .isFalse (fun hh => h (by injection hh))
  | .arr xs, .arr ys =>
      match Json.decEqList xs ys with
      | .isTrue h => .isTrue (by rw [h])
      | .isFalse h => .isFalse (fun hh => h (by injection hh))
  | .obj fs, .obj gs =>
      match Json.decEqFields fs gs with
      | .isTrue h => .isTrue (by rw [h])
      | .isFalse h => .isFalse (fun hh => h (by injection hh))
  | .null, .bool _ | .null, .num _ | .null, .str _ | .null, .arr _
  | .null, .obj _ => .isFalse nofun
  | .bool _, .null | .bool _, .num _ | .bool _, .str _ | .bool _, .arr _
  | .bool _, .obj _ => .isFalse nofun
  | .num _, .null | .num _, .bool _ | .num _, .str _ | .num _, .arr _
  | .num _, .obj _ => .isFalse nofun
  | .str _, .null | .str _, .bool _ | .str _, .num _ | .str _, .arr _
  | .str _, .obj _ => .isFalse nofun
  | .arr _, .null | .arr _, .bool _ | .arr _, .num _ | .arr _, .str _
  | .arr _, .obj _ => .isFalse nofun
  | .obj _, .null | .obj _, .bool _ | .obj _, .num _ | .obj _, .str _
  | .obj _, .arr _ => .isFalse nofun

/-- Decidable equality for lists of `Json`. -/
def Json.decEqList : (xs ys : List Json) → Decidable (xs = ys)
  | [], [] => .isTrue rfl
  | [], _ :: _ => .isFalse nofun
  | _ :: _, [] => .isFalse nofun
  | x :: xs, y :: ys =>
      match Json.decEq x y, Json.decEqList xs ys with
      | .isTrue h1, .isTrue h2 => .isTrue (by rw [h1, h2])
      | .isFalse h1, _ =>
          .isFalse (fun hh => h1 (by injection hh))
      | _, .isFalse h2 =>
          .isFalse (fun hh => h2 (by injection hh))

/-- Decidable equality for `Json` dict entry lists. -/
def Json.decEqFields :
    (xs ys : List (String × Json)) → Decidable (xs = ys)
  | [], [] => .isTrue rfl
  | [], _ :: _ => .isFalse nofun
  | _ :: _, [] => .isFalse nofun
  | (k, v) :: xs, (k2, v2) :: ys =>
      match instDecidableEqString k k2, Json.decEq v v2,
          Json.decEqFields xs ys with
      | .isTrue hk, .isTrue hv, .isTrue ht => .isTrue (by rw [hk, hv, ht])
      | .isFalse hk, _, _ =>
          .isFalse (fun hh => by
            injection hh with h1 h2
            exact hk (congrArg Prod.fst h1))
      | _, .isFalse hv, _ =>
          .isFalse (fun hh => by
            injection hh with h1 h2
            exact hv (congrArg Prod.snd h1))
      | _, _, .isFalse ht =>
          .isFalse (fun hh => by injection hh with h1 h2; exact ht h2)

end

instance : DecidableEq Json := Json.decEq

/-- Python truthiness (`bool(x)`): `None`, `False`, zero, and empty
strings/lists/dicts are falsy; everything else is truthy. -/
def Json.truthy : Json → Bool
  | .null => false
  | .bool b => b
  | .num q => q ≠ 0
  | .str s => s ≠ ""
  | .arr items => !items.isEmpty
  | .obj fields => !fields.isEmpty

/-- Python's `a or b`: returns `a` when truthy, else `b`. -/
def Json.pyOr (a b : Json) : Json := if a.truthy then a else b

/-- Lookup in a Python dict (`d.get(key)` returns `None` when absent).
Keys of a dict are unique, so first-match lookup is exact. -/
def Json.get : Json → String → Json
  | .obj fields, key =>
      match fields.lookup key with
      | some v => v
      | none => .null
  | _, _ => .null

/-- Membership test for a Python dict (`key in d`). -/
def Json.hasKey : Json → String → Bool
  | .obj fields, key => (fields.lookup key).isSome
  | _, _ => false

/-- Dict item assignment (`d[key] = v`): replaces the value at the first
occurrence of `key`, or appends a new entry (insertion order), as CPython
dicts do. Non-dicts are returned unchanged (the sources only assign into
dicts). -/
def Json.set : Json → String → Json → Json
  | .obj fields, key, v => .obj (setFields fields key v)
  | j, _, _ => j
where
  setFields : List (String × Json) → String → Json → List (String × Json)
    | [], key, v => [(key, v)]
    | (k, w) :: rest, key, v =>
        if k = key then (k, v) :: rest else (k, w) :: setFields rest key v

/-- Whether a value is a Python dict (`isinstance(x, dict)`). -/
def Json.isDict : Json → Bool
  | .obj _ => true
  | _ => false

/-- Characters stripped by Python's `str.strip()` with no arguments
(the `\s` class of `re` restricted to ASCII, which is what the sources
feed it). -/
def isPySpace (c : Char) : Bool :=
  c = ' ' ∨ c = '\t' ∨ c = '\n' ∨ c = '\r' ∨ c = '\x0b' ∨ c = '\x0c'

/-- Python `str.strip()`: remove leading and trailing whitespace. -/
def pyStrip (s : String) : String :=
  String.mk (((s.data.dropWhile isPySpace).reverse.dropWhile isPySpace).reverse)

/-- Python `str.strip(chars)`: remove any of the given characters from both
ends. -/
def pyStripChars (chars : List Char) (s : String) : String :=
  String.mk (((s.data.dropWhile (chars.contains ·)).reverse.dropWhile
    (chars.contains ·)).reverse)

mutual

/-- Python `str(x)` for the modelled values. Numeric representation is
abstracted by `toString` on `ℚ` (non-empty, no surrounding whitespace,
which is all the embedded code observes). -/
def pyStr : Json → String
  | .null => "None"
  | .bool true => "True"
  | .bool false => "False"
  | .num q => toString q
  | .str s => s
  | .arr items => "[" ++ pyStrItems items ++ "]"
  | .obj fields => "\x7b" ++ pyStrFields fields ++ "\x7d"

/-- Comma-joined `repr` of list items, as Python's `str(list)` prints. -/
def pyStrItems : List Json → String
  | [] => ""
  | [x] => pyRepr x
  | x :: rest => pyRepr x ++ ", " ++ pyStrItems rest

/-- Comma-joined `repr` entries of a dict, as Python's `str(dict)` prints. -/
def pyStrFields : List (String × Json) → String
  | [] => ""
  | [(k, v)] => "\x27" ++ k ++ "\x27: " ++ pyRepr v
  | (k, v) :: rest => "\x27" ++ k ++ "\x27: " ++ pyRepr v ++ ", " ++ pyStrFields rest

/-- Python `repr(x)`: like `str(x)` but strings are quoted. -/
def pyRepr : Json → String
  | .null => "None"
  | .bool true => "True"
  | .bool false => "False"
  | .num q => toString q
  | .str s => "\x27" ++ s ++ "\x27"
  | .arr items => "[" ++ pyStrItems items ++ "]"
  | .obj fields => "\x7b" ++ pyStrFields fields ++ "\x7d"

end

/-!
Job records and the in-memory job store.

`JobRecord` is translated from the dataclass in `models.py`: it carries
status/result/error slots for feedback rounds 1 through 4 and has no
round-5 fields, exactly as the source declares. Timestamps are modelled as
natural-number ticks. Field values are dynamic (`Json`), as in Python.
-/

/-- The job record from `models.py` (`@dataclass class JobRecord`). The
`deck` field is read-only for `update_job` and is kept for the frame
statements. -/
structure JobRecord where
  created_at : ℕ
  updated_at : ℕ
  status : Json
  progress : Json
  result : Json
  transcript_full_text : Json
  transcript_words : Json
  transcript_segments : Json
  derived_metrics : Json
  deck : Json
  llm_test_output : Json
  summary_json : Json
  summary_error : Json
  feedback_round_1 : Json
  feedback_round_1_version : Json
  feedback_round_1_status : Json
  feedback_round_1_error : Json
  feedback_round_2 : Json
  feedback_round_2_version : Json
  feedback_round_2_status : Json
  feedback_round_2_error : Json
  feedback_round_3 : Json
  feedback_round_3_version : Json
  feedback_round_3_status : Json
  feedback_round_3_error : Json
  feedback_round_4 : Json
  feedback_round_4_version : Json
  feedback_round_4_status : Json
  feedback_round_4_error : Json
  artifacts_gcs_prefix : Json
  has_diarization : Json
  artifacts_error : Json
  video_gcs_uri : Json
  error : Json
deriving Repr

/-- The job store's contents: job id to record. `InMemoryJobStore` keeps a
dict `self._jobs`; the mutex serialises each call, so each call sees and
produces one map state. -/
abbrev JobMap : Type := String → Option JobRecord

/-- Errors raised by the Python-level call semantics: `TypeError` for an
unexpected keyword argument, `KeyError` for a missing job id. -/
inductive PyErr where
  | typeError : PyErr
  | keyError : PyErr
deriving Repr, DecidableEq

/-- The keyword arguments of `InMemoryJobStore.update_job` from
`storage.py`. `status` and `progress` default to `None` (modelled as
`Json.null`); every other parameter defaults to the `UNSET` sentinel,
modelled as `none` (`some v` means the caller passed `v`, which may itself
be `Json.null` for an explicit `None`). -/
structure UpdateJobArgs where
  status : Json := .null
  progress : Json := .null
  result : Option Json := none
  transcript_full_text : Option Json := none
  transcript_words : Option Json := none
  transcript_segments : Option Json := none
  derived_metrics : Option Json := none
  llm_test_output : Option Json := none
  summary_json : Option Json := none
  summary_error : Option Json := none
  feedback_round_1 : Option Json := none
  feedback_round_1_version : Option Json := none
  feedback_round_1_status : Option Json := none
  feedback_round_1_error : Option Json := none
  feedback_round_2 : Option Json := none
  feedback_round_2_version : Option Json := none
  feedback_round_2_status : Option Json := none
  feedback_round_2_error : Option Json := none
  feedback_round_3 : Option Json := none
  feedback_round_3_version : Option Json := none
  feedback_round_3_status : Option Json := none
  feedback_round_3_error : Option Json := none
  artifacts_gcs_prefix : Option Json := none
  has_diarization : Option Json := none
  artifacts_error : Option Json := none
  video_gcs_uri : Option Json := none
  error : Option Json := none

/-- The body of `InMemoryJobStore.update_job` applied to one record: each
field guarded by `is not None` (status, progress) or `is not UNSET`
(everything else), then `job.updated_at = utc_now()`. The guards are
independent, so the sequential Python assignments are a parallel record
update. -/
def applyUpdate (job : JobRecord) (a : UpdateJobArgs) (now : ℕ) : JobRecord where
  created_at := job.created_at
  updated_at := now
  status := if a.status = .null then job.status else a.status
  progress := if a.progress = .null then job.progress else a.progress
  result := a.result.getD job.result
  transcript_full_text := a.transcript_full_text.getD job.transcript_full_text
  transcript_words := a.transcript_words.getD job.transcript_words
  transcript_segments := a.transcript_segments.getD job.transcript_segments
  derived_metrics := a.derived_metrics.getD job.derived_metrics
  deck := job.deck
  llm_test_output := a.llm_test_output.getD job.llm_test_output
  summary_json := a.summary_json.getD job.summary_json
  summary_error := a.summary_error.getD job.summary_error
  feedback_round_1 := a.feedback_round_1.getD job.feedback_round_1
  feedback_round_1_version :=
    a.feedback_round_1_version.getD job.feedback_round_1_version
  feedback_round_1_status :=
    a.feedback_round_1_status.getD job.feedback_round_1_status
  feedback_round_1_error :=
    a.feedback_round_1_error.getD job.feedback_round_1_error
  feedback_round_2 := a.feedback_round_2.getD job.feedback_round_2
  feedback_round_2_version :=
    a.feedback_round_2_version.getD job.feedback_round_2_version
  feedback_round_2_status :=
    a.feedback_round_2_status.getD job.feedback_round_2_status
  feedback_round_2_error :=
    a.feedback_round_2_error.getD job.feedback_round_2_error
  feedback_round_3 := a.feedback_round_3.getD job.feedback_round_3
  feedback_round_3_version :=
    a.feedback_round_3_version.getD job.feedback_round_3_version
  feedback_round_3_status :=
    a.feedback_round_3_status.getD job.feedback_round_3_status
  feedback_round_3_error :=
    a.feedback_round_3_error.getD job.feedback_round_3_error
  feedback_round_4 := job.feedback_round_4
  feedback_round_4_version := job.feedback_round_4_version
  feedback_round_4_status := job.feedback_round_4_status
  feedback_round_4_error := job.feedback_round_4_error
  artifacts_gcs_prefix :=
    Option.getD (UpdateJobArgs.artifacts_gcs_prefix a)
      (JobRecord.artifacts_gcs_prefix job)
  has_diarization := a.has_diarization.getD job.has_diarization
  artifacts_error := a.artifacts_error.getD job.artifacts_error
  video_gcs_uri := a.video_gcs_uri.getD job.video_gcs_uri
  error := a.error.getD job.error

/-- `InMemoryJobStore.update_job`: `self._jobs[job_id]` raises `KeyError`
for a missing id; otherwise the partial update is applied under the store
lock and the update timestamp stamped. -/
def update_job (jobs : JobMap) (job_id : String) (a : UpdateJobArgs)
    (now : ℕ) : Except PyErr JobMap :=
  match jobs job_id with
  | none => .error .keyError
  | some job =>
      .ok (fun k => if k = job_id then some (applyUpdate job a now) else jobs k)

/-- The keyword names accepted by `update_job` (both `InMemoryJobStore` and
`PostgresJobStore` declare exactly these, plus the positional `job_id`):
rounds 4 and 5 are absent from the signature. -/
def updateJobKeywords : List String :=
  ["status", "progress", "result", "transcript_full_text",
   "transcript_words", "transcript_segments", "derived_metrics",
   "llm_test_output", "summary_json", "summary_error",
   "feedback_round_1", "feedback_round_1_version",
   "feedback_round_1_status", "feedback_round_1_error",
   "feedback_round_2", "feedback_round_2_version",
   "feedback_round_2_status", "feedback_round_2_error",
   "feedback_round_3", "feedback_round_3_version",
   "feedback_round_3_status", "feedback_round_3_error",
   "artifacts_gcs_prefix", "has_diarization", "artifacts_error",
   "video_gcs_uri", "error"]

/-- Bind one keyword argument into the parameter record, or fail if the
name is not in the `update_job` signature (Python raises `TypeError:
update_job() got an unexpected keyword argument` before the body runs). -/
def bindUpdateKeyword (a : UpdateJobArgs) (kv : String × Json) :
    Option UpdateJobArgs :=
  match kv.1 with
  | "status" => some { a with status := kv.2 }
  | "progress" => some { a with progress := kv.2 }
  | "result" => some { a with result := some kv.2 }
  | "transcript_full_text" => some { a with transcript_full_text := some kv.2 }
  | "transcript_words" => some { a with transcript_words := some kv.2 }
  | "transcript_segments" => some { a with transcript_segments := some kv.2 }
  | "derived_metrics" => some { a with derived_metrics := some kv.2 }
  | "llm_test_output" => some { a with llm_test_output := some kv.2 }
  | "summary_json" => some { a with summary_json := some kv.2 }
  | "summary_error" => some { a with summary_error := some kv.2 }
  | "feedback_round_1" => some { a with feedback_round_1 := some kv.2 }
  | "feedback_round_1_version" =>
      some { a with feedback_round_1_version := some kv.2 }
  | "feedback_round_1_status" =>
      some { a with feedback_round_1_status := some kv.2 }
  | "feedback_round_1_error" =>
      some { a with feedback_round_1_error := some kv.2 }
  | "feedback_round_2" => some { a with feedback_round_2 := some kv.2 }
  | "feedback_round_2_version" =>
      some { a with feedback_round_2_version := some kv.2 }
  | "feedback_round_2_status" =>
      some { a with feedback_round_2_status := some kv.2 }
  | "feedback_round_2_error" =>
      some { a with feedback_round_2_error := some kv.2 }
  | "feedback_round_3" => some { a with feedback_round_3 := some kv.2 }
  | "feedback_round_3_version" =>
      some { a with feedback_round_3_version := some kv.2 }
  | "feedback_round_3_status" =>
      some { a with feedback_round_3_status := some kv.2 }
  | "feedback_round_3_error" =>
      some { a with feedback_round_3_error := some kv.2 }
  | "artifacts_gcs_prefix" => some { a with artifacts_gcs_prefix := some kv.2 }
  | "has_diarization" => some { a with has_diarization := some kv.2 }
  | "artifacts_error" => some { a with artifacts_error := some kv.2 }
  | "video_gcs_uri" => some { a with video_gcs_uri := some kv.2 }
  | "error" => some { a with error := some kv.2 }
  | _ => none

/-- Bind a whole keyword-argument list, failing on the first name outside
the signature. -/
def bindUpdateKeywords (kwargs : List (String × Json)) : Option UpdateJobArgs :=
  kwargs.foldlM bindUpdateKeyword {}

/-- A Python-level call `job_store.update_job(job_id, **kwargs)`: keyword
binding happens before the body, so an unknown keyword raises `TypeError`
and the store is untouched. -/
def call_update_job (jobs : JobMap) (job_id : String)
    (kwargs : List (String × Json)) (now : ℕ) : Except PyErr JobMap :=
  match bindUpdateKeywords kwargs with
  | none => .error .typeError
  | some a => update_job jobs job_id a now

/-!
Feedback orchestrator (`feedback_orchestrator.py`).
-/

/-- Python's `getattr(job, f"feedback_round_N_status", default)`: the
`JobRecord` dataclass carries the attribute for rounds 1..4 only, so any
other round number falls back to the default (`none` here; callers supply
the Python default). -/
def feedback_round_status_attr (job : JobRecord) : ℕ → Option Json
  | 1 => some job.feedback_round_1_status
  | 2 => some job.feedback_round_2_status
  | 3 => some job.feedback_round_3_status
  | 4 => some job.feedback_round_4_status
  | _ => none

/-- Python's `getattr(job, f"feedback_round_N", default)` — the round
payload attribute, present for rounds 1..4 only. -/
def feedback_round_payload_attr (job : JobRecord) : ℕ → Option Json
  | 1 => some job.feedback_round_1
  | 2 => some job.feedback_round_2
  | 3 => some job.feedback_round_3
  | 4 => some job.feedback_round_4
  | _ => none

/-- `_round_done(job, n)`: status equals `"done"` and the payload is a
dict. For round 5 both `getattr` calls fall back to `None`. -/
def round_done (job : JobRecord) (round_number : ℕ) : Bool :=
  let status := (feedback_round_status_attr job round_number).getD .null
  let payload := (feedback_round_payload_attr job round_number).getD .null
  status = Json.str "done" && payload.isDict

/-- `_missing_prerequisites(job)`: the rounds 1..4 that are not done, each
rendered as `"roundN (status)"`. -/
def missing_prerequisites (job : JobRecord) : List String :=
  [1, 2, 3, 4].filterMap fun round_number =>
    if round_done job round_number then none
    else
      let status := (feedback_round_status_attr job round_number).getD
        (.str "pending")
      some ("round" ++ toString round_number ++ " (" ++ pyStr status ++ ")")

/-- The keyword arguments `_mark_round5_skipped` passes to
`job_store.update_job`. -/
def mark_round5_skipped_kwargs (missing : List String) :
    List (String × Json) :=
  let detail :=
    if missing.isEmpty then "unknown prerequisites"
    else String.intercalate ", " missing
  [("feedback_round_5_status", .str "failed"),
   ("feedback_round_5_error",
    .str ("Round 5 skipped because prerequisite rounds are incomplete or " ++
      "failed: " ++ detail)),
   ("feedback_round_5_version", .str "r5_v2")]

/-- `_mark_round5_skipped(job_store, job_id, missing)` as the Python call
it performs on the store. -/
def mark_round5_skipped (jobs : JobMap) (job_id : String)
    (missing : List String) (now : ℕ) : Except PyErr JobMap :=
  call_update_job jobs job_id (mark_round5_skipped_kwargs missing) now

/-- What `_run_feedback_orchestration` decides to do with round 5 after
waiting for all submitted round tasks, as a function of the first observed
failure and the re-fetched job. -/
inductive Round5Action where
  | preserveDone : Round5Action
  | markSkipped (missing : List String) : Round5Action
  | alreadyDone : Round5Action
  | runRound5 : Round5Action
deriving Repr, DecidableEq

/-- The round-5 branch of `_run_feedback_orchestration` (the code after
`latest = job_store.get_job(job_id)` succeeds). -/
def round5_decision (first_failed_round : Option ℕ) (latest : JobRecord) :
    Round5Action :=
  let missing := missing_prerequisites latest
  if first_failed_round.isSome || !missing.isEmpty then
    if round_done latest 5 then .preserveDone else .markSkipped missing
  else if round_done latest 5 then .alreadyDone
  else .runRound5

/-- `ensure_feedback_orchestration_started`: under the `_active_jobs_lock`
mutex, test-and-insert on the active-jobs set, returning whether a worker
is spawned together with the new set state. -/
def ensure_feedback_orchestration_started (active : Finset String)
    (job_id : String) : Bool × Finset String :=
  if job_id ∈ active then (false, active)
  else (true, insert job_id active)

/-!
Shared coaching input (`coaching_input.py`).
-/

/-- The transcript-text extraction of `_extract_transcript_payload` plus
`load_shared_input`'s use of it:
`str(job.transcript_full_text or payload.get("full_text") or "").strip()`
where `payload` is `job.result` when it is a dict and `{}` otherwise. -/
def extract_transcript_full_text (job : JobRecord) : String :=
  let payload := if job.result.isDict then job.result else Json.obj []
  pyStrip (pyStr (Json.pyOr job.transcript_full_text
    (Json.pyOr (payload.get "full_text") (.str ""))))

/-- How far `load_shared_input(job_store, job_id)` gets before its two
named failure modes: `RuntimeError("Job not found: ...")` when the store
has no such job, `RuntimeError("Transcript full text is missing...")` when
the extracted text is empty, and otherwise it proceeds to assemble the
shared input. -/
inductive LoadOutcome where
  | notFound : LoadOutcome
  | missingTranscript : LoadOutcome
  | proceeds : LoadOutcome
deriving Repr, DecidableEq

/-- The outcome of `load_shared_input` with respect to its two named
errors. -/
def load_shared_input_outcome (jobs : JobMap) (job_id : String) :
    LoadOutcome :=
  match jobs job_id with
  | none => .notFound
  | some job =>
      if extract_transcript_full_text job = "" then .missingTranscript
      else .proceeds

/-- Modelled from the spec: "no transcript text is available from either
the normalized field or a legacy raw-result fallback" — a field makes
non-empty transcript text available when it holds a string that strips to
something non-empty. Used only to compare the spec's wording with the
code's behaviour. -/
def spec_nonempty_text : Json → Bool
  | .str s => pyStrip s ≠ ""
  | _ => false

/-- Modelled from the spec: transcript text is available from the
normalized `transcript_full_text` field or from the legacy raw result
payload's `full_text` field. -/
def spec_transcript_available (job : JobRecord) : Bool :=
  let payload := if job.result.isDict then job.result else Json.obj []
  spec_nonempty_text job.transcript_full_text ||
    spec_nonempty_text (payload.get "full_text")

/-!
Round-stage failure persistence (`coaching_round1.py` .. `coaching_round5.py`).
Every round module defines the same `_truncate` with `MAX_ERROR_CHARS =
1200`, and its `except` block persists `feedback_round_N_status="failed"`,
`feedback_round_N_error=_truncate(str(exc))` before re-raising.
-/

/-- `_truncate(text, max_chars=1200)`, identical in all five round
modules. -/
def truncate (text : String) (max_chars : ℕ := 1200) : String :=
  let value := pyStrip text
  if value.length ≤ max_chars then value
  else String.mk (value.data.take (max_chars - 3) ++ "...".data)

/-- Keyword arguments of the `update_job` call in `run_round1`'s `except`
block, for exception text `exc`. -/
def round1_failure_kwargs (exc : String) : List (String × Json) :=
  [("feedback_round_1_status", .str "failed"),
   ("feedback_round_1_error", .str (truncate exc))]

/-- Keyword arguments of the `update_job` call in `run_round2`'s `except`
block. -/
def round2_failure_kwargs (exc : String) : List (String × Json) :=
  [("feedback_round_2_status", .str "failed"),
   ("feedback_round_2_error", .str (truncate exc))]

/-- Keyword arguments of the `update_job` call in `run_round3`'s `except`
block. -/
def round3_failure_kwargs (exc : String) : List (String × Json) :=
  [("feedback_round_3_status", .str "failed"),
   ("feedback_round_3_error", .str (truncate exc))]

/-- Keyword arguments of the `update_job` call in `run_round4`'s `except`
block. -/
def round4_failure_kwargs (exc : String) : List (String × Json) :=
  [("feedback_round_4_status", .str "failed"),
   ("feedback_round_4_error", .str (truncate exc))]

/-- Keyword arguments of the `update_job` call in `run_round5`'s `except`
block. -/
def round5_failure_kwargs (exc : String) : List (String × Json) :=
  [("feedback_round_5_status", .str "failed"),
   ("feedback_round_5_error", .str (truncate exc))]

/-!
Speech-to-text result merging (`stt_v2.py`).
-/

/-- A timed word of a normalized transcript (`words` entries produced by
`_normalize_batch_results`). The source's `end` key is spelled `stop`
(`end` is a Lean keyword). -/
structure SttWord where
  start : ℚ
  stop : ℚ
  word : String
  speaker : Option String := none
deriving Repr, DecidableEq

/-- A timed segment of a normalized transcript. -/
structure SttSegment where
  start : ℚ
  stop : ℚ
  text : String
deriving Repr, DecidableEq

/-- One normalized transcription result
(`{"full_text": ..., "segments": ..., "words": ...}`). -/
structure SttChunk where
  full_text : String
  segments : List SttSegment := []
  words : List SttWord := []
deriving Repr, DecidableEq

/-- `_merge_transcripts(results, speaker_flags)`: join the non-empty
stripped texts with single spaces, concatenate segment and word lists in
input order, and OR the speaker flags. No timestamp is modified. -/
def merge_transcripts (results : List SttChunk)
    (speaker_flags : List Bool) : SttChunk × Bool :=
  let full_text_parts := results.filterMap fun r =>
    let text := pyStrip r.full_text
    if text = "" then none else some text
  ({ full_text := pyStrip (String.intercalate " " full_text_parts)
     segments := (results.map (·.segments)).flatten
     words := (results.map (·.words)).flatten },
   speaker_flags.any id)

/-!
Progress writes of the transcription pipeline (`transcription.py` and the
stage callbacks of `transcribe_v2_chirp2_from_gcs` in `stt_v2.py`).

The pipeline's effect on the job's `progress` field is the ordered list of
progress values it passes to `update_job`, as a function of the outcomes
of the external calls it performs. `transcribe_v2_chirp2_from_gcs` emits
`40` before submitting the batch request and `60` after submitting it; a
first-attempt exception can therefore surface either before the `60`
emit (at `batch_recognize`) or after it (at `operation.result`), and a
diarization-related message triggers a retry that re-emits `40`. -/
inductive SttAttempt where
  | ok : SttAttempt
  | failEarly (diarizationRelated : Bool) : SttAttempt
  | failLate (diarizationRelated : Bool) : SttAttempt
deriving Repr, DecidableEq

/-- Progress values emitted by `transcribe_v2_chirp2_from_gcs` up to (not
including) the `parsing_results` stage, with whether the call survives:
a non-diarization failure raises `RuntimeError` immediately; a
diarization-related failure retries once without diarization, re-emitting
the `stt_batch_recognize` (40) marker. -/
def stt_progress_writes (first second : SttAttempt) : List ℕ × Bool :=
  match first with
  | .ok => ([40, 60], true)
  | .failEarly d =>
      if !d then ([40], false)
      else
        match second with
        | .ok => ([40, 40, 60], true)
        | .failEarly _ => ([40, 40], false)
        | .failLate _ => ([40, 40, 60], false)
  | .failLate d =>
      if !d then ([40, 60], false)
      else
        match second with
        | .ok => ([40, 60, 40, 60], true)
        | .failEarly _ => ([40, 60, 40], false)
        | .failLate _ => ([40, 60, 40, 60], false)

instance : Fintype SttAttempt where
  elems :=
    ⟨{.ok, .failEarly false, .failEarly true, .failLate false,
      .failLate true}, by decide⟩
  complete := by
    intro a
    cases a with
    | ok => decide
    | failEarly b => cases b <;> decide
    | failLate b => cases b <;> decide

/-- Outcomes of the external calls made by one run of
`process_transcription_job`. `deck_upload = some b` means a deck was
supplied and its processing succeeds iff `b`. The video upload and the
tone/body extractors never write `progress`, and an artifact-write failure
is caught (non-fatal), so only `artifacts_ok` of those appears and only
for completeness. -/
structure PipelineEnv where
  deck_upload : Option Bool
  bucket_ok : Bool
  convert_ok : Bool
  audio_upload_ok : Bool
  stt_first : SttAttempt
  stt_second : SttAttempt
  parse_ok : Bool
  artifacts_ok : Bool
deriving Repr, DecidableEq

/-- `PipelineEnv` as a product, for finiteness. -/
def pipelineEnvEquiv : PipelineEnv ≃
    (Option Bool × Bool × Bool × Bool × SttAttempt × SttAttempt × Bool ×
      Bool) where
  toFun e := (e.deck_upload, e.bucket_ok, e.convert_ok, e.audio_upload_ok,
    e.stt_first, e.stt_second, e.parse_ok, e.artifacts_ok)
  invFun p := ⟨p.1, p.2.1, p.2.2.1, p.2.2.2.1, p.2.2.2.2.1, p.2.2.2.2.2.1,
    p.2.2.2.2.2.2.1, p.2.2.2.2.2.2.2⟩
  left_inv := fun _ => rfl
  right_inv := fun _ => rfl

instance : Fintype PipelineEnv := Fintype.ofEquiv _ pipelineEnvEquiv.symm

/-- Progress writes of `process_transcription_job` after the initial
`10`-progress update: each uncaught exception lands in the `except` block
that writes `status="failed", progress=100`. -/
def pipeline_main_writes (env : PipelineEnv) : List ℕ :=
  if !env.bucket_ok then [100]
  else if !env.convert_ok then [100]
  else
    20 ::
      (if !env.audio_upload_ok then [100]
       else
         let stt := stt_progress_writes env.stt_first env.stt_second
         stt.1 ++
           (if !stt.2 then [100]
            else 80 :: (if !env.parse_ok then [100] else [90, 100])))

/-- The full ordered list of `progress` values one run of
`process_transcription_job` writes through `update_job`: the deck branch
writes `10` (and `10` again as `progress_done`), a deck failure falls to
the `failed, 100` handler, and the rest follows `pipeline_main_writes`. -/
def progress_writes (env : PipelineEnv) : List ℕ :=
  match env.deck_upload with
  | some false => [10, 100]
  | some true => 10 :: 10 :: pipeline_main_writes env
  | none => 10 :: pipeline_main_writes env

/-!
Ground-truth backfill (`coaching_round3.py`, `coaching_round4.py`). The
helpers `_parse_time_range` and `_extract_sentence_for_window` are defined
identically in both modules.
-/

/-- A word timestamp as the round stages receive it
(`coaching_input.WordTimestamp`); `stop` spells the source's `end`. -/
structure WordTimestamp where
  word : String
  start : ℚ
  stop : ℚ
  speaker : Option String := none
deriving Repr, DecidableEq

/-- Numeric value of a digit character. -/
def digitVal (c : Char) : ℕ := c.toNat - 48

/-- Value of a digit string, most significant first. -/
def natOfDigits (ds : List Char) : ℕ :=
  ds.foldl (fun acc c => 10 * acc + digitVal c) 0

/-- Split a leading run of ASCII digits (the regex atom `\d+`). -/
def spanDigits (cs : List Char) : List Char × List Char :=
  (cs.takeWhile Char.isDigit, cs.dropWhile Char.isDigit)

/-- Candidate matches of the regex group `(\d{1,2}(?:\.\d+)?)` at the head
of the input, in backtracking priority order (two digits before one,
fraction present before absent), each with the remaining input. -/
def secondsCandidates (cs : List Char) : List (ℚ × List Char) :=
  match cs with
  | [] => []
  | c1 :: rest1 =>
      if c1.isDigit then
        let base1 := secondsWithFraction (digitVal c1 : ℚ) rest1
        match rest1 with
        | c2 :: rest2 =>
            if c2.isDigit then
              secondsWithFraction ((10 * digitVal c1 + digitVal c2 : ℕ) : ℚ)
                rest2 ++ base1
            else base1
        | [] => base1
      else []
where
  /-- Candidates for the optional `(?:\.\d+)?` suffix after an integer
  part: with the greedy fraction first, then without. -/
  secondsWithFraction (intPart : ℚ) (cs : List Char) :
      List (ℚ × List Char) :=
    match cs with
    | '.' :: rest =>
        let frac := spanDigits rest
        if frac.1.isEmpty then [(intPart, cs)]
        else
          [(intPart + (natOfDigits frac.1 : ℚ) / ((10 : ℚ) ^ frac.1.length),
            frac.2),
           (intPart, cs)]
    | _ => [(intPart, cs)]

/-- First successful alternative, as regex backtracking selects it. -/
def firstSome {α β : Type} (f : α → Option β) : List α → Option β
  | [] => none
  | x :: xs =>
      match f x with
      | some y => some y
      | none => firstSome f xs

/-- Match `re.match(r"(\d+):(\d{1,2}(?:\.\d+)?)\s*-\s*(\d+):(\d{1,2}(?:\.\d+)?)", tr)`
against the character list and produce the `(start, end)` seconds the
source computes from the four groups; `re.match` anchors at the start only,
so trailing characters are ignored. -/
def matchTimeRange (cs : List Char) : Option (ℚ × ℚ) :=
  let mins1 := spanDigits cs
  if mins1.1.isEmpty then none
  else
    match mins1.2 with
    | ':' :: cs1 =>
        firstSome
          (fun sec1 =>
            let afterGap := sec1.2.dropWhile isPySpace
            match afterGap with
            | '-' :: cs2 =>
                let cs3 := cs2.dropWhile isPySpace
                let mins2 := spanDigits cs3
                if mins2.1.isEmpty then none
                else
                  match mins2.2 with
                  | ':' :: cs4 =>
                      firstSome
                        (fun sec2 =>
                          some ((natOfDigits mins1.1 : ℚ) * 60 + sec1.1,
                                (natOfDigits mins2.1 : ℚ) * 60 + sec2.1))
                        (secondsCandidates cs4)
                  | _ => none
            | _ => none)
          (secondsCandidates cs1)
    | _ => none

/-- The dash normalisation
`time_range.replace("\u2013", "-").replace("\u2014", "-")`: both patterns
and the replacement are single characters, so the two replaces are exactly
a character map. -/
def replaceDashes (s : String) : String :=
  String.mk (s.data.map fun c => if c = '–' ∨ c = '—' then '-' else c)

/-- `_parse_time_range(time_range)`: normalise en/em dashes to `-`, strip,
and match the time-range regex. -/
def parse_time_range (time_range : String) : Option (ℚ × ℚ) :=
  let tr := pyStrip (replaceDashes time_range)
  matchTimeRange tr.data

/-- `_extract_sentence_for_window(words, start_sec, end_sec)`: join the
words whose `[start, end]` interval overlaps the window (`w.end >
start_sec and w.start < end_sec`), or `None` when none do or the join
strips to empty. -/
def extract_sentence_for_window (words : List WordTimestamp)
    (start_sec end_sec : ℚ) : Option String :=
  if words.isEmpty then none
  else
    let overlapping := words.filter fun w =>
      decide (w.stop > start_sec) && decide (w.start < end_sec)
    if overlapping.isEmpty then none
    else
      let text := pyStrip (String.intercalate " " (overlapping.map (·.word)))
      if text = "" then none else some text

/-- String value of a moment's `time_range` as `_parse_time_range`
receives it: `moment.get("time_range", "")`. A missing key yields `""`
(a non-string value would raise in the source; the validated payloads
carry strings, and a `""` fails the regex just as the raise would abort). -/
def moment_time_range (moment : Json) : String :=
  match Json.get moment "time_range" with
  | .str s => s
  | _ => ""

/-- The per-moment body of `_backfill_sentence_text` /
`_backfill_round3_sentence_text`: an unparsable range only fills a missing
`sentence_text` with `None`; a parsed window unconditionally overwrites
`sentence_text` with the transcript-derived text (or `None`). -/
def backfill_moment (words : List WordTimestamp) (moment : Json) : Json :=
  match parse_time_range (moment_time_range moment) with
  | none =>
      if moment.hasKey "sentence_text" then moment
      else Json.set moment "sentence_text" .null
  | some (s, e) =>
      Json.set moment "sentence_text"
        (match extract_sentence_for_window words s e with
         | none => .null
         | some t => .str t)

/-- `_MOMENT_KEYS_BY_CRITERION` of `coaching_round4.py`. -/
def round4_moment_keys (criterion : String) : List String :=
  match criterion with
  | "Posture & Stillness" => ["stable_moments", "unstable_moments"]
  | "Eye Contact" => ["strong_eye_contact_moments", "look_away_moments"]
  | "Calm Confidence" => ["confident_moments", "turned_away_events"]
  | _ => []

/-- `_MOMENT_KEYS_BY_CRITERION` of `coaching_round3.py`. -/
def round3_moment_keys (criterion : String) : List String :=
  match criterion with
  | "Energy & Presence" => ["well_delivered_moments", "misaligned_moments"]
  | "Pacing & Emphasis" =>
      ["rushed_important_sentences", "slow_low_priority_sentences",
       "well_paced_sentences"]
  | _ => []

/-- One section's backfill pass: for each designated moment-array key,
rewrite every dict moment in place (list entries that are not dicts and
keys that do not hold lists are left as the validated schema never
produces them). -/
def backfill_section (moment_keys_of : String → List String)
    (words : List WordTimestamp) (sect : Json) : Json :=
  let criterion :=
    match Json.get sect "criterion" with
    | .str s => s
    | _ => ""
  (moment_keys_of criterion).foldl
    (fun sec key =>
      match Json.get sec key with
      | .arr moments =>
          Json.set sec key
            (.arr (moments.map fun m =>
              if m.isDict then backfill_moment words m else m))
      | _ => sec)
    sect

/-- `_backfill_sentence_text(parsed, words)` from `coaching_round4.py`. -/
def backfill_sentence_text (parsed : Json) (words : List WordTimestamp) :
    Json :=
  match Json.get parsed "sections" with
  | .arr sections =>
      Json.set parsed "sections"
        (.arr (sections.map fun s =>
          if s.isDict then backfill_section round4_moment_keys words s
          else s))
  | _ => parsed

/-- `_backfill_round3_sentence_text(parsed, words)` from
`coaching_round3.py`. -/
def backfill_round3_sentence_text (parsed : Json)
    (words : List WordTimestamp) : Json :=
  match Json.get parsed "sections" with
  | .arr sections =>
      Json.set parsed "sections"
        (.arr (sections.map fun s =>
          if s.isDict then backfill_section round3_moment_keys words s
          else s))
  | _ => parsed

/-!
Derived pause/filler/pace metrics (`metrics.py`).
-/

/-- A parse of Python's `float(s)` on a string: optional sign, digits with
an optional fractional part (the exponent/`inf`/`nan` forms never occur in
the pipeline's data and are treated as unparsable). -/
def parsePyFloat (s : String) : Option ℚ :=
  let cs := (pyStrip s).data
  let signed :=
    match cs with
    | '-' :: r => ((-1 : ℚ), r)
    | '+' :: r => ((1 : ℚ), r)
    | _ => ((1 : ℚ), cs)
  let ip := spanDigits signed.2
  match ip.2 with
  | [] => if ip.1.isEmpty then none else some (signed.1 * natOfDigits ip.1)
  | '.' :: r =>
      let fp := spanDigits r
      if fp.2.isEmpty && !(ip.1.isEmpty && fp.1.isEmpty) then
        some (signed.1 * ((natOfDigits ip.1 : ℚ) +
          (natOfDigits fp.1 : ℚ) / ((10 : ℚ) ^ fp.1.length)))
      else none
  | _ => none

/-- `_to_float(value, default)`: `float(value)` with `TypeError`/`ValueError`
falling back to the default. -/
def to_float (value : Json) (default : ℚ) : ℚ :=
  match value with
  | .num q => q
  | .bool b => if b then 1 else 0
  | .str s => (parsePyFloat s).getD default
  | _ => default

/-- `PAUSE_THRESHOLD_SECONDS = 0.60`. -/
def PAUSE_THRESHOLD_SECONDS : ℚ := 6 / 10

/-- `SINGLE_WORD_FILLERS` (a set; only membership is used). -/
def SINGLE_WORD_FILLERS : List String :=
  ["um", "uh", "like", "actually", "basically", "literally"]

/-- `MULTI_WORD_FILLERS`. -/
def MULTI_WORD_FILLERS : List (String × String) :=
  [("you", "know"), ("kind", "of"), ("sort", "of")]

/-- ASCII letter test, the regex `[A-Za-z]` of
`_count_alpha_like_words`. -/
def isAsciiLetter (c : Char) : Bool :=
  ('A' ≤ c && c ≤ 'Z') || ('a' ≤ c && c ≤ 'z')

/-- `_count_alpha_like_words(words)`, specialised to the normalized word
strings it receives inside `compute_derived_metrics` (each entry's
`"word"` value is already a string there): count the entries whose
stripped text is non-empty and contains an ASCII letter. -/
def count_alpha_like_words (tokens : List String) : ℕ :=
  (tokens.filter fun t =>
    let token := pyStrip t
    token ≠ "" && token.data.any isAsciiLetter).length

/-- `_normalize_token(raw_word)`: lowercase (the pipeline's tokens are
ASCII), strip whitespace, then strip the punctuation set `",.!?;:"`. -/
def normalize_token (raw_word : String) : String :=
  pyStripChars [',', '.', '!', '?', ';', ':'] (pyStrip raw_word.toLower)

/-- A `Counter` increment preserving first-insertion order, as CPython
dicts do. -/
def counterAdd (c : List (String × ℕ)) (key : String) : List (String × ℕ) :=
  match c with
  | [] => [(key, 1)]
  | (k, n) :: rest =>
      if k = key then (k, n + 1) :: rest else (k, n) :: counterAdd rest key

/-- `Counter.most_common(n)`: entries sorted by count descending, stable
(insertion order breaks ties), first `n`. -/
def most_common (c : List (String × ℕ)) (n : ℕ) : List (String × ℕ) :=
  (c.mergeSort fun a b => b.2 ≤ a.2).take n

/-- A word dict normalized by `compute_derived_metrics` (`word`/`start`/
`end` with the source's `end` spelled `stop`). -/
structure NormalizedWord where
  word : String
  start : ℚ
  stop : ℚ
deriving Repr, DecidableEq

/-- The metrics dict returned by `compute_derived_metrics`; `top_fillers`
keeps the `{"token": ..., "count": ...}` entries as pairs. -/
structure DerivedMetricsResult where
  duration_seconds : ℚ
  wpm : ℚ
  pause_count : ℕ
  longest_pause_seconds : ℚ
  filler_count : ℕ
  filler_rate_per_min : ℚ
  top_fillers : List (String × ℕ)
deriving Repr, DecidableEq

/-- `compute_derived_metrics(words)` from `metrics.py`, over the raw word
dicts the pipeline passes in. -/
def compute_derived_metrics (words : List Json) : DerivedMetricsResult :=
  if words.isEmpty then
    { duration_seconds := 0
      wpm := 0
      pause_count := 0
      longest_pause_seconds := 0
      filler_count := 0
      filler_rate_per_min := 0
      top_fillers := [] }
  else
    let normalized_words := words.map fun item =>
      { word := pyStr (Json.pyOr (item.get "word") (.str ""))
        start := to_float (item.get "start") 0
        stop := to_float (item.get "end") 0 : NormalizedWord }
    let start := ((normalized_words.map (·.start)).min?).getD 0
    let finish := ((normalized_words.map (·.stop)).max?).getD 0
    let duration_seconds := max 0 (finish - start)
    let word_count : ℕ := count_alpha_like_words (normalized_words.map (·.word))
    let duration_minutes := max (duration_seconds / 60) ((1 : ℚ) / 1000000)
    let wpm := (word_count : ℚ) / duration_minutes
    let sorted_words :=
      normalized_words.mergeSort fun a b => a.start ≤ b.start
    let gaps := (sorted_words.zip sorted_words.tail).map fun p =>
      p.2.start - p.1.stop
    let pause_count :=
      (gaps.filter fun gap => gap ≥ PAUSE_THRESHOLD_SECONDS).length
    let longest_pause_seconds :=
      gaps.foldl (fun acc gap => if gap > acc then gap else acc) 0
    let tokens := sorted_words.map fun item => normalize_token item.word
    let singles := tokens.foldl
      (fun c token =>
        if SINGLE_WORD_FILLERS.contains token then counterAdd c token else c)
      []
    let filler_counter := (tokens.zip tokens.tail).foldl
      (fun c p =>
        MULTI_WORD_FILLERS.foldl
          (fun c fs =>
            if p.1 = fs.1 && p.2 = fs.2 then
              counterAdd c (fs.1 ++ " " ++ fs.2)
            else c)
          c)
      singles
    let filler_count : ℕ := (filler_counter.map (·.2)).sum
    let filler_rate_per_min := (filler_count : ℚ) / duration_minutes
    { duration_seconds := duration_seconds
      wpm := wpm
      pause_count := pause_count
      longest_pause_seconds := max 0 longest_pause_seconds
      filler_count := filler_count
      filler_rate_per_min := filler_rate_per_min
      top_fillers := most_common filler_counter 5 }

/-!
Shared helpers for the theorems.
-/

/-- The record `InMemoryJobStore.create_job` installs: `queued`, progress
0, rounds 1..3 initialised to `pending`, round-4 fields left at the
dataclass defaults (`None`). -/
def create_job_record (now : ℕ) : JobRecord where
  created_at := now
  updated_at := now
  status := .str "queued"
  progress := .num 0
  result := .null
  transcript_full_text := .null
  transcript_words := .null
  transcript_segments := .null
  derived_metrics := .null
  deck := .null
  llm_test_output := .null
  summary_json := .null
  summary_error := .null
  feedback_round_1 := .null
  feedback_round_1_version := .str "r1_v1"
  feedback_round_1_status := .str "pending"
  feedback_round_1_error := .null
  feedback_round_2 := .null
  feedback_round_2_version := .str "r2_v1"
  feedback_round_2_status := .str "pending"
  feedback_round_2_error := .null
  feedback_round_3 := .null
  feedback_round_3_version := .str "r3_v1"
  feedback_round_3_status := .str "pending"
  feedback_round_3_error := .null
  feedback_round_4 := .null
  feedback_round_4_version := .null
  feedback_round_4_status := .null
  feedback_round_4_error := .null
  artifacts_gcs_prefix := .null
  has_diarization := .null
  artifacts_error := .null
  video_gcs_uri := .null
  error := .null

/-- A store holding exactly one job. -/
def singleStore (job_id : String) (job : JobRecord) : JobMap :=
  fun k => if k = job_id then some job else none

/-- Job lookup in the result of a store call (none on error). -/
def storeAfter (r : Except PyErr JobMap) (k : String) : Option JobRecord :=
  match r with
  | .ok m => m k
  | .error _ => none

/-- `filterMap` with an if-guard is filtering followed by mapping. -/
theorem filterMap_ite_eq_filter_map {α β : Type} (p : α → Bool) (f : α → β)
    (l : List α) :
    (l.filterMap fun a => if p a then none else some (f a)) =
      (l.filter fun a => !p a).map f := by
  induction l with
  | nil => rfl
  | cons hd tl ih =>
      by_cases h : p hd <;> simp [List.filterMap_cons, List.filter_cons, h, ih]

/-- Setting a dict key makes it the value found by lookup. -/
theorem lookup_setFields (fields : List (String × Json)) (key : String)
    (v : Json) : (Json.set.setFields fields key v).lookup key = some v := by
  induction fields with
  | nil => simp [Json.set.setFields]
  | cons hd tl ih =>
      by_cases h : hd.1 = key
      · obtain ⟨k, w⟩ := hd
        simp only at h
        simp [Json.set.setFields, h, List.lookup]
      · obtain ⟨k, w⟩ := hd
        simp only at h
        have hk : (key == k) = false := by
          simp only [beq_eq_false_iff_ne, ne_eq]
          exact fun hkk => h hkk.symm
        simp [Json.set.setFields, h, List.lookup, hk, ih]

/-- `Json.get` after `Json.set` on a dict returns the written value. -/
theorem get_set_obj (fields : List (String × Json)) (key : String)
    (v : Json) : Json.get (Json.set (.obj fields) key v) key = v := by
  simp [Json.set, Json.get, lookup_setFields]

/-!
Claim theorems.
-/

/-- C10: for the empty word list, `compute_derived_metrics` returns the
all-zero metrics structure (duration 0.0, wpm 0.0, no pauses, no fillers,
empty top-fillers list) instead of failing, so a job with transcript text
but no word timestamps still gets a well-formed derived-metrics group. -/
theorem compute_derived_metrics_empty_all_zero :
    compute_derived_metrics [] =
      { duration_seconds := 0, wpm := 0, pause_count := 0,
        longest_pause_seconds := 0, filler_count := 0,
        filler_rate_per_min := 0, top_fillers := [] } := rfl

/-- C2 (amended): `_merge_transcripts` concatenates the per-chunk word and
segment lists in input order without applying any start-offset to their
timestamps (and ORs the speaker flags); merging two chunks that each carry
a word at local time 1.0s therefore yields both words at 1.0s, not a
single re-offset monotone timeline. -/
theorem merge_transcripts_concatenates_without_offset
    (results : List SttChunk) (speaker_flags : List Bool) :
    (merge_transcripts results speaker_flags).1.words =
      (results.map (·.words)).flatten ∧
    (merge_transcripts results speaker_flags).1.segments =
      (results.map (·.segments)).flatten ∧
    (merge_transcripts results speaker_flags).2 = speaker_flags.any id :=
  ⟨rfl, rfl, rfl⟩

/-- The two-chunk merge of the claim's scenario: chunks with offsets 0s
and 55s, each holding one word at local time 1.0s. -/
def offsetExampleChunks : List SttChunk :=
  [{ full_text := "hello", words := [⟨1, 3/2, "hello", none⟩] },
   { full_text := "world", words := [⟨1, 3/2, "world", none⟩] }]

/-- C2 counterexample: merging the two chunks of the claim's scenario
yields words at global times 1.0s and 1.0s — not 1.0s and 56.0s, and not
in strictly ascending order. -/
theorem merge_transcripts_offset_counterexample :
    ((merge_transcripts offsetExampleChunks [false, false]).1.words.map
      (·.start)) = [1, 1] ∧
    ((merge_transcripts offsetExampleChunks [false, false]).1.words.map
      (·.start)) ≠ [1, 56] ∧
    ¬ List.Chain' (· < ·)
      ((merge_transcripts offsetExampleChunks [false, false]).1.words.map
        (·.start)) := by
  have h : ((merge_transcripts offsetExampleChunks [false, false]).1.words.map
      (·.start)) = ([1, 1] : List ℚ) := rfl
  refine ⟨rfl, by decide, ?_⟩
  rw [h]
  simp [List.chain'_cons]

/-- C5 (amended): `ensure_feedback_orchestration_started` is a no-op
returning `false` when the job id is already in the active set, and
otherwise inserts the id and returns `true`; consequently, starting from a
state that does not already contain the id, of two serialised calls for
the same id exactly the first returns `true` and the second `false`. -/
theorem ensure_started_mutual_exclusion_from_inactive
    (active : Finset String) (job_id : String) :
    (job_id ∈ active →
      ensure_feedback_orchestration_started active job_id = (false, active)) ∧
    (job_id ∉ active →
      ensure_feedback_orchestration_started active job_id =
        (true, insert job_id active)) ∧
    (job_id ∉ active →
      (ensure_feedback_orchestration_started active job_id).1 = true ∧
      (ensure_feedback_orchestration_started
        (ensure_feedback_orchestration_started active job_id).2 job_id).1 =
          false) := by
  refine ⟨fun h => ?_, fun h => ?_, fun h => ?_⟩
  · simp [ensure_feedback_orchestration_started, h]
  · simp [ensure_feedback_orchestration_started, h]
  · simp [ensure_feedback_orchestration_started, h, Finset.mem_insert_self]

/-- Witness for C5's theorem at the empty active set and id `"job-1"`. -/
theorem ensure_started_mutual_exclusion_witness :
    (ensure_feedback_orchestration_started ∅ "job-1").1 = true ∧
    (ensure_feedback_orchestration_started
      (ensure_feedback_orchestration_started ∅ "job-1").2 "job-1").1 =
        false :=
  (ensure_started_mutual_exclusion_from_inactive ∅ "job-1").2.2
    (Finset.not_mem_empty _)

/-- C5 counterexample: with the active set already containing the id, two
serialised `ensure_started` calls for that id both return `false`, so "for
any two calls with the set in a fixed state, exactly one returns true"
fails. -/
theorem ensure_started_already_active_counterexample :
    (ensure_feedback_orchestration_started {"job-1"} "job-1").1 = false ∧
    (ensure_feedback_orchestration_started
      (ensure_feedback_orchestration_started {"job-1"} "job-1").2
      "job-1").1 = false := by
  constructor <;> simp [ensure_feedback_orchestration_started]

/-- C6: the round-5 prerequisite check is a pure function of the four
round status/payload slots: the missing list is exactly the rounds 1..4
failing the done-with-dict-payload test, in order, each rendered with its
status, and recomputing it on an unchanged job gives the same list. -/
theorem missing_prerequisites_pure_characterization (job : JobRecord) :
    missing_prerequisites job =
      ((([1, 2, 3, 4] : List ℕ).filter fun n => !(round_done job n)).map
        fun n => "round" ++ toString n ++ " (" ++
          pyStr ((feedback_round_status_attr job n).getD (.str "pending")) ++
          ")") ∧
    (∀ n : ℕ, round_done job n = true ↔
      ((feedback_round_status_attr job n).getD .null = Json.str "done" ∧
       ((feedback_round_payload_attr job n).getD .null).isDict = true)) ∧
    missing_prerequisites job = missing_prerequisites job := by
  refine ⟨?_, fun n => ?_, rfl⟩
  · exact filterMap_ite_eq_filter_map (fun n => round_done job n) _ _
  · simp [round_done, Bool.and_eq_true, decide_eq_true_eq]

/-- Witness for C6's theorem at a freshly created job: rounds 1..3 are
`pending`, round 4's status attribute is `None`, and none is done. -/
theorem missing_prerequisites_characterization_witness :
    missing_prerequisites (create_job_record 0) =
      ((([1, 2, 3, 4] : List ℕ).filter
          fun n => !(round_done (create_job_record 0) n)).map
        fun n => "round" ++ toString n ++ " (" ++
          pyStr ((feedback_round_status_attr (create_job_record 0) n).getD
            (.str "pending")) ++ ")") :=
  (missing_prerequisites_pure_characterization (create_job_record 0)).1

/-- Adjacent-pairs monotonicity of a write sequence: every written value
is at least the previously written one. -/
def nondecreasing : List ℕ → Bool
  | [] => true
  | [_] => true
  | a :: b :: rest => decide (a ≤ b) && nondecreasing (b :: rest)

set_option maxHeartbeats 1000000 in
/-- C9 (amended): every progress value one pipeline run writes is an
integer at most 100 (hence within 0..100), and the written sequence is
non-decreasing for every run except those in which the first STT attempt
fails with a diarization-related error after the `waiting_for_stt` (60)
update — there the fallback re-emits the 40 stage marker below the
already-written 60. -/
theorem progress_writes_bounded_and_monotone_off_fallback
    (env : PipelineEnv) :
    (∀ p ∈ progress_writes env, p ≤ 100) ∧
    (env.stt_first ≠ SttAttempt.failLate true →
      nondecreasing (progress_writes env) = true) := by
  obtain ⟨d, bk, cv, au, f, s, pk, ar⟩ := env
  revert d bk cv au f s pk ar
  decide

/-- Witness for C9's theorem on a fully successful run: its write sequence
is non-decreasing. -/
theorem progress_writes_monotone_witness :
    nondecreasing (progress_writes
      { deck_upload := none, bucket_ok := true, convert_ok := true,
        audio_upload_ok := true, stt_first := .ok, stt_second := .ok,
        parse_ok := true, artifacts_ok := true }) = true :=
  (progress_writes_bounded_and_monotone_off_fallback
    { deck_upload := none, bucket_ok := true, convert_ok := true,
      audio_upload_ok := true, stt_first := .ok, stt_second := .ok,
      parse_ok := true, artifacts_ok := true }).2 (by decide)

/-- The run on which the first STT attempt fails with a diarization
message at `operation.result` (after `waiting_for_stt`) and the retry
without diarization succeeds. -/
def fallbackRegressionEnv : PipelineEnv where
  deck_upload := none
  bucket_ok := true
  convert_ok := true
  audio_upload_ok := true
  stt_first := .failLate true
  stt_second := .ok
  parse_ok := true
  artifacts_ok := true

/-- C9 counterexample: on the diarization-fallback run the pipeline writes
progress 10, 20, 40, 60, 40, 60, 80, 90, 100 — the second 40 is written
after a 60, so the sequence is not non-decreasing. -/
theorem progress_writes_fallback_regression :
    progress_writes fallbackRegressionEnv =
      [10, 20, 40, 60, 40, 60, 80, 90, 100] ∧
    nondecreasing (progress_writes fallbackRegressionEnv) = false :=
  ⟨rfl, rfl⟩

/-- C1: after the orchestrator has waited for its round tasks, a first
failure or a non-empty missing-rounds list always reaches the
mark-round-5-failed call (the preserve-if-done guard is dead code: the
`JobRecord` dataclass has no round-5 attribute, so `_round_done(job, 5)`
is always false), but that call passes `feedback_round_5_*` keyword
arguments that are not in the `update_job` signature of either store, so
it raises `TypeError` and round 5 is never persisted as `failed`. -/
theorem round5_skip_typeerror_never_persists_failed
    (jobs : JobMap) (job_id : String) (latest : JobRecord)
    (first_failed_round : Option ℕ) (now : ℕ) :
    round_done latest 5 = false ∧
    (first_failed_round.isSome = true ∨ missing_prerequisites latest ≠ [] →
      round5_decision first_failed_round latest =
        .markSkipped (missing_prerequisites latest)) ∧
    bindUpdateKeywords
      (mark_round5_skipped_kwargs (missing_prerequisites latest)) = none ∧
    mark_round5_skipped jobs job_id (missing_prerequisites latest) now =
      .error .typeError := by
  have h5 : round_done latest 5 = false := rfl
  have hbind : bindUpdateKeywords
      (mark_round5_skipped_kwargs (missing_prerequisites latest)) = none :=
    rfl
  refine ⟨h5, fun h => ?_, hbind, ?_⟩
  · have hb : (first_failed_round.isSome ||
        !(missing_prerequisites latest).isEmpty) = true := by
      rcases h with h | h
      · simp [h]
      · simp [List.isEmpty_iff, h]
    simp [round5_decision, hb, h5]
  · simp [mark_round5_skipped, call_update_job, hbind]

/-- Witness for C1's theorem on a freshly created job (all four rounds
incomplete): the orchestrator decides to mark round 5 skipped and the
persistence call raises `TypeError`. -/
theorem round5_skip_typeerror_witness :
    round5_decision none (create_job_record 0) =
      .markSkipped (missing_prerequisites (create_job_record 0)) ∧
    mark_round5_skipped (singleStore "j" (create_job_record 0)) "j"
      (missing_prerequisites (create_job_record 0)) 3 = .error .typeError := by
  have h := round5_skip_typeerror_never_persists_failed
    (singleStore "j" (create_job_record 0)) "j" (create_job_record 0) none 3
  exact ⟨h.2.1 (Or.inr (by decide)), h.2.2.2⟩

/-- C7 (amended): `load_shared_input` raises its "not found" error iff the
store has no job for the id; given a stored job it raises its "missing
transcript" error iff the text computed by the Python `or`-chain —
`str(transcript_full_text or result["full_text"] or "").strip()` — is
empty. A whitespace-only normalized field is truthy, so it masks the
legacy fallback and still strips to empty. -/
theorem load_shared_input_error_characterization (jobs : JobMap)
    (job_id : String) :
    (load_shared_input_outcome jobs job_id = .notFound ↔
      jobs job_id = none) ∧
    (∀ job, jobs job_id = some job →
      (load_shared_input_outcome jobs job_id = .missingTranscript ↔
        extract_transcript_full_text job = "")) := by
  constructor
  · cases hj : jobs job_id with
    | none => simp [load_shared_input_outcome, hj]
    | some job =>
        simp only [load_shared_input_outcome, hj]
        by_cases he : extract_transcript_full_text job = "" <;> simp [he, hj]
  · intro job hj
    simp only [load_shared_input_outcome, hj]
    by_cases he : extract_transcript_full_text job = "" <;> simp [he]

/-- The C7 counterexample job: a whitespace-only normalized transcript
field next to a legacy payload that does carry text. -/
def whitespaceLegacyJob : JobRecord :=
  { create_job_record 0 with
      transcript_full_text := .str "   "
      result := .obj [("full_text", .str "hello")] }

/-- C7 counterexample: on `whitespaceLegacyJob` the loader raises the
missing-transcript error although non-empty transcript text is available
from the legacy `full_text` field, refuting the claimed "iff no non-empty
transcript text is available from either field". -/
theorem load_shared_input_whitespace_masks_legacy :
    load_shared_input_outcome (singleStore "j" whitespaceLegacyJob) "j" =
      .missingTranscript ∧
    spec_transcript_available whitespaceLegacyJob = true := ⟨rfl, rfl⟩

/-- A job whose normalized transcript field is set, for C7's witness. -/
def transcriptPresentJob : JobRecord :=
  { create_job_record 0 with transcript_full_text := .str "hello world" }

/-- Witness for C7's theorem on a job with a normalized transcript. -/
theorem load_shared_input_error_characterization_witness :
    load_shared_input_outcome (singleStore "j" transcriptPresentJob) "j" =
        .missingTranscript ↔
      extract_transcript_full_text transcriptPresentJob = "" :=
  (load_shared_input_error_characterization
    (singleStore "j" transcriptPresentJob) "j").2 transcriptPresentJob rfl

/-- The transcript words of the backfill scenario: `"correct"` over
[10.0, 10.5] and `"text"` over [10.5, 11.9]. -/
def groundTruthWords : List WordTimestamp :=
  [{ word := "correct", start := 10, stop := 21/2 },
   { word := "text", start := 21/2, stop := 119/10 }]

/-- A round-4 response whose moment claims `sentence_text: "wrong guess"`
for the range `0:10–0:12`. -/
def round4ExamplePayload : Json :=
  .obj [("round", .num 4), ("title", .str "Body Language"),
    ("sections", .arr [
      .obj [("criterion", .str "Posture & Stillness"),
        ("verdict", .str "strong"),
        ("stable_moments", .arr [
          .obj [("time_range", .str "0:10–0:12"),
            ("sentence_text", .str "wrong guess")]]),
        ("unstable_moments", .arr [])]])]

/-- `round4ExamplePayload` after backfill: the model's guess replaced by
the transcript-derived `"correct text"`. -/
def round4ExpectedPayload : Json :=
  .obj [("round", .num 4), ("title", .str "Body Language"),
    ("sections", .arr [
      .obj [("criterion", .str "Posture & Stillness"),
        ("verdict", .str "strong"),
        ("stable_moments", .arr [
          .obj [("time_range", .str "0:10–0:12"),
            ("sentence_text", .str "correct text")]]),
        ("unstable_moments", .arr [])]])]

/-- The round-3 variant of the scenario. -/
def round3ExamplePayload : Json :=
  .obj [("round", .num 3), ("title", .str "Vocal Delivery"),
    ("sections", .arr [
      .obj [("criterion", .str "Energy & Presence"),
        ("verdict", .str "mixed"),
        ("well_delivered_moments", .arr [
          .obj [("time_range", .str "0:10-0:12"),
            ("sentence_text", .str "wrong guess")]]),
        ("misaligned_moments", .arr [])]])]

/-- `round3ExamplePayload` after backfill. -/
def round3ExpectedPayload : Json :=
  .obj [("round", .num 3), ("title", .str "Vocal Delivery"),
    ("sections", .arr [
      .obj [("criterion", .str "Energy & Presence"),
        ("verdict", .str "mixed"),
        ("well_delivered_moments", .arr [
          .obj [("time_range", .str "0:10-0:12"),
            ("sentence_text", .str "correct text")]]),
        ("misaligned_moments", .arr [])]])]

/-- C8: whenever a moment's `time_range` parses to a window, the backfill
overwrites the moment's `sentence_text` with exactly the join of the
overlapping transcript words (or null when none overlap), never merging
with the model's text; in particular the spec's concrete scenario
produces exactly `"correct text"` through both the round-4 and round-3
backfill passes. -/
theorem backfill_sentence_text_overwrites_ground_truth :
    (∀ (words : List WordTimestamp) (moment : Json) (s e : ℚ),
      parse_time_range (moment_time_range moment) = some (s, e) →
      Json.get (backfill_moment words moment) "sentence_text" =
        (match extract_sentence_for_window words s e with
         | none => Json.null
         | some t => Json.str t)) ∧
    backfill_sentence_text round4ExamplePayload groundTruthWords =
      round4ExpectedPayload ∧
    backfill_round3_sentence_text round3ExamplePayload groundTruthWords =
      round3ExpectedPayload := by
  refine ⟨?_, by with_unfolding_all rfl, by with_unfolding_all rfl⟩
  intro words moment s e hp
  cases moment
  case obj fields =>
    simp only [backfill_moment, hp]
    exact get_set_obj fields _ _
  all_goals exact Option.noConfusion hp

/-- Witness for C8's theorem at the concrete moment of the scenario. -/
theorem backfill_overwrite_witness :
    Json.get (backfill_moment groundTruthWords
      (.obj [("time_range", .str "0:10–0:12"),
        ("sentence_text", .str "wrong guess")])) "sentence_text" =
      .str "correct text" := by
  have h := backfill_sentence_text_overwrites_ground_truth.1 groundTruthWords
    (.obj [("time_range", .str "0:10–0:12"),
      ("sentence_text", .str "wrong guess")]) 10 12 (by with_unfolding_all rfl)
  rw [h]
  with_unfolding_all rfl

/-- C3: for rounds 1..3, the stage's `except` block persists status
`failed` with the error text stripped and truncated — the stored string is
at most 1200 characters, and when the stripped text exceeds 1200 it is
exactly its first 1197 characters followed by `"..."`, 1200 characters in
all — before re-raising; but the identical `except` blocks of rounds 4
and 5 pass `feedback_round_4_*` / `feedback_round_5_*` keywords that the
store's `update_job` signature does not declare, so those calls raise
`TypeError` and no `failed` status is ever persisted for them. -/
theorem round_failure_persist_rounds123_but_typeerror_rounds45
    (jobs : JobMap) (job_id : String) (job : JobRecord) (exc : String)
    (now : ℕ) (hj : jobs job_id = some job) :
    ((storeAfter (call_update_job jobs job_id (round1_failure_kwargs exc)
        now) job_id).map JobRecord.feedback_round_1_status) =
      some (.str "failed") ∧
    ((storeAfter (call_update_job jobs job_id (round1_failure_kwargs exc)
        now) job_id).map JobRecord.feedback_round_1_error) =
      some (.str (truncate exc)) ∧
    ((storeAfter (call_update_job jobs job_id (round2_failure_kwargs exc)
        now) job_id).map JobRecord.feedback_round_2_status) =
      some (.str "failed") ∧
    ((storeAfter (call_update_job jobs job_id (round2_failure_kwargs exc)
        now) job_id).map JobRecord.feedback_round_2_error) =
      some (.str (truncate exc)) ∧
    ((storeAfter (call_update_job jobs job_id (round3_failure_kwargs exc)
        now) job_id).map JobRecord.feedback_round_3_status) =
      some (.str "failed") ∧
    ((storeAfter (call_update_job jobs job_id (round3_failure_kwargs exc)
        now) job_id).map JobRecord.feedback_round_3_error) =
      some (.str (truncate exc)) ∧
    (truncate exc).length ≤ 1200 ∧
    ((pyStrip exc).length > 1200 →
      truncate exc =
        String.mk ((pyStrip exc).data.take 1197 ++ "...".data) ∧
      (truncate exc).length = 1200) ∧
    call_update_job jobs job_id (round4_failure_kwargs exc) now =
      .error .typeError ∧
    call_update_job jobs job_id (round5_failure_kwargs exc) now =
      .error .typeError := by
  have hb1 : bindUpdateKeywords (round1_failure_kwargs exc) =
      some { feedback_round_1_status := some (.str "failed"),
             feedback_round_1_error := some (.str (truncate exc)) } := rfl
  have hb2 : bindUpdateKeywords (round2_failure_kwargs exc) =
      some { feedback_round_2_status := some (.str "failed"),
             feedback_round_2_error := some (.str (truncate exc)) } := rfl
  have hb3 : bindUpdateKeywords (round3_failure_kwargs exc) =
      some { feedback_round_3_status := some (.str "failed"),
             feedback_round_3_error := some (.str (truncate exc)) } := rfl
  have hlen : (pyStrip exc).length = (pyStrip exc).data.length := rfl
  have hdots : "...".data.length = 3 := rfl
  refine ⟨?_, ?_, ?_, ?_, ?_, ?_, ?_, fun hl => ⟨?_, ?_⟩, rfl, rfl⟩
  · simp [call_update_job, hb1, update_job, hj, storeAfter, applyUpdate]
  · simp [call_update_job, hb1, update_job, hj, storeAfter, applyUpdate]
  · simp [call_update_job, hb2, update_job, hj, storeAfter, applyUpdate]
  · simp [call_update_job, hb2, update_job, hj, storeAfter, applyUpdate]
  · simp [call_update_job, hb3, update_job, hj, storeAfter, applyUpdate]
  · simp [call_update_job, hb3, update_job, hj, storeAfter, applyUpdate]
  · by_cases h : (pyStrip exc).length ≤ 1200
    · simp [truncate, h]
    · simp only [truncate, if_neg h]
      show ((pyStrip exc).data.take (1200 - 3) ++ "...".data).length ≤ 1200
      rw [List.length_append, List.length_take, hdots]
      omega
  · have h : ¬ (pyStrip exc).length ≤ 1200 := by omega
    simp [truncate, h]
  · have h : ¬ (pyStrip exc).length ≤ 1200 := by omega
    simp only [truncate, if_neg h]
    show ((pyStrip exc).data.take (1200 - 3) ++ "...".data).length = 1200
    rw [List.length_append, List.length_take, hdots]
    omega

/-- Witness for C3's theorem: a concrete job, a concrete exception text —
round 1 persists `failed`, round 4's persistence call raises
`TypeError`. -/
theorem round_failure_persistence_witness :
    ((storeAfter (call_update_job (singleStore "j" (create_job_record 0))
        "j" (round1_failure_kwargs "boom") 9) "j").map
      JobRecord.feedback_round_1_status) = some (.str "failed") ∧
    call_update_job (singleStore "j" (create_job_record 0)) "j"
      (round4_failure_kwargs "boom") 9 = .error .typeError := by
  have h := round_failure_persist_rounds123_but_typeerror_rounds45
    (singleStore "j" (create_job_record 0)) "j" (create_job_record 0)
    "boom" 9 rfl
  obtain ⟨h1, h2, h3, h4, h5, h6, h7, h8, h9, h10⟩ := h
  exact ⟨h1, h9⟩

/-- C4 (amended): for every existing job, `update_job` changes exactly the
fields provided in the call and stamps the update timestamp; an omitted
sentinel field is left unchanged and an explicitly provided value
(including an explicit null) is written verbatim, while for `status` and
`progress` null is the omission sentinel itself, so an explicit null
leaves them unchanged rather than clearing them; every other job in the
store, and the fields no keyword can address (`created_at`, `deck`, the
round-4 slots), are untouched; a missing job id raises the `KeyError`
not-found error. -/
theorem update_job_partial_update_frame (jobs : JobMap) (job_id : String)
    (a : UpdateJobArgs) (now : ℕ) :
    (jobs job_id = none → update_job jobs job_id a now = .error .keyError) ∧
    (∀ job, jobs job_id = some job →
      (∀ k, k ≠ job_id →
        storeAfter (update_job jobs job_id a now) k = jobs k) ∧
      storeAfter (update_job jobs job_id a now) job_id =
        some (applyUpdate job a now) ∧
      (applyUpdate job a now).updated_at = now ∧
      (applyUpdate job a now).created_at = job.created_at ∧
      (applyUpdate job a now).deck = job.deck ∧
      (applyUpdate job a now).feedback_round_4 = job.feedback_round_4 ∧
      (applyUpdate job a now).feedback_round_4_version =
        job.feedback_round_4_version ∧
      (applyUpdate job a now).feedback_round_4_status =
        job.feedback_round_4_status ∧
      (applyUpdate job a now).feedback_round_4_error =
        job.feedback_round_4_error ∧
      (a.status = Json.null → (applyUpdate job a now).status = job.status) ∧
      (a.status ≠ Json.null → (applyUpdate job a now).status = a.status) ∧
      (a.progress = Json.null →
        (applyUpdate job a now).progress = job.progress) ∧
      (a.progress ≠ Json.null →
        (applyUpdate job a now).progress = a.progress) ∧
      (a.result = none →
        (applyUpdate job a now).result = job.result) ∧
      (∀ v, a.result = some v →
        (applyUpdate job a now).result = v) ∧
      (a.transcript_full_text = none →
        (applyUpdate job a now).transcript_full_text = job.transcript_full_text) ∧
      (∀ v, a.transcript_full_text = some v →
        (applyUpdate job a now).transcript_full_text = v) ∧
      (a.transcript_words = none →
        (applyUpdate job a now).transcript_words = job.transcript_words) ∧
      (∀ v, a.transcript_words = some v →
        (applyUpdate job a now).transcript_words = v) ∧
      (a.transcript_segments = none →
        (applyUpdate job a now).transcript_segments = job.transcript_segments) ∧
      (∀ v, a.transcript_segments = some v →
        (applyUpdate job a now).transcript_segments = v) ∧
      (a.derived_metrics = none →
        (applyUpdate job a now).derived_metrics = job.derived_metrics) ∧
      (∀ v, a.derived_metrics = some v →
        (applyUpdate job a now).derived_metrics = v) ∧
      (a.llm_test_output = none →
        (applyUpdate job a now).llm_test_output = job.llm_test_output) ∧
      (∀ v, a.llm_test_output = some v →
        (applyUpdate job a now).llm_test_output = v) ∧
      (a.summary_json = none →
        (applyUpdate job a now).summary_json = job.summary_json) ∧
      (∀ v, a.summary_json = some v →
        (applyUpdate job a now).summary_json = v) ∧
      (a.summary_error = none →
        (applyUpdate job a now).summary_error = job.summary_error) ∧
      (∀ v, a.summary_error = some v →
        (applyUpdate job a now).summary_error = v) ∧
      (a.feedback_round_1 = none →
        (applyUpdate job a now).feedback_round_1 = job.feedback_round_1) ∧
      (∀ v, a.feedback_round_1 = some v →
        (applyUpdate job a now).feedback_round_1 = v) ∧
      (a.feedback_round_1_version = none →
        (applyUpdate job a now).feedback_round_1_version = job.feedback_round_1_version) ∧
      (∀ v, a.feedback_round_1_version = some v →
        (applyUpdate job a now).feedback_round_1_version = v) ∧
      (a.feedback_round_1_status = none →
        (applyUpdate job a now).feedback_round_1_status = job.feedback_round_1_status) ∧
      (∀ v, a.feedback_round_1_status = some v →
        (applyUpdate job a now).feedback_round_1_status = v) ∧
      (a.feedback_round_1_error = none →
        (applyUpdate job a now).feedback_round_1_error = job.feedback_round_1_error) ∧
      (∀ v, a.feedback_round_1_error = some v →
        (applyUpdate job a now).feedback_round_1_error = v) ∧
      (a.feedback_round_2 = none →
        (applyUpdate job a now).feedback_round_2 = job.feedback_round_2) ∧
      (∀ v, a.feedback_round_2 = some v →
        (applyUpdate job a now).feedback_round_2 = v) ∧
      (a.feedback_round_2_version = none →
        (applyUpdate job a now).feedback_round_2_version = job.feedback_round_2_version) ∧
      (∀ v, a.feedback_round_2_version = some v →
        (applyUpdate job a now).feedback_round_2_version = v) ∧
      (a.feedback_round_2_status = none →
        (applyUpdate job a now).feedback_round_2_status = job.feedback_round_2_status) ∧
      (∀ v, a.feedback_round_2_status = some v →
        (applyUpdate job a now).feedback_round_2_status = v) ∧
      (a.feedback_round_2_error = none →
        (applyUpdate job a now).feedback_round_2_error = job.feedback_round_2_error) ∧
      (∀ v, a.feedback_round_2_error = some v →
        (applyUpdate job a now).feedback_round_2_error = v) ∧
      (a.feedback_round_3 = none →
        (applyUpdate job a now).feedback_round_3 = job.feedback_round_3) ∧
      (∀ v, a.feedback_round_3 = some v →
        (applyUpdate job a now).feedback_round_3 = v) ∧
      (a.feedback_round_3_version = none →
        (applyUpdate job a now).feedback_round_3_version = job.feedback_round_3_version) ∧
      (∀ v, a.feedback_round_3_version = some v →
        (applyUpdate job a now).feedback_round_3_version = v) ∧
      (a.feedback_round_3_status = none →
        (applyUpdate job a now).feedback_round_3_status = job.feedback_round_3_status) ∧
      (∀ v, a.feedback_round_3_status = some v →
        (applyUpdate job a now).feedback_round_3_status = v) ∧
      (a.feedback_round_3_error = none →
        (applyUpdate job a now).feedback_round_3_error = job.feedback_round_3_error) ∧
      (∀ v, a.feedback_round_3_error = some v →
        (applyUpdate job a now).feedback_round_3_error = v) ∧
      (UpdateJobArgs.artifacts_gcs_prefix a = none →
        JobRecord.artifacts_gcs_prefix (applyUpdate job a now) = JobRecord.artifacts_gcs_prefix job) ∧
      (∀ v, UpdateJobArgs.artifacts_gcs_prefix a = some v →
        JobRecord.artifacts_gcs_prefix (applyUpdate job a now) = v) ∧
      (a.has_diarization = none →
        (applyUpdate job a now).has_diarization = job.has_diarization) ∧
      (∀ v, a.has_diarization = some v →
        (applyUpdate job a now).has_diarization = v) ∧
      (a.artifacts_error = none →
        (applyUpdate job a now).artifacts_error = job.artifacts_error) ∧
      (∀ v, a.artifacts_error = some v →
        (applyUpdate job a now).artifacts_error = v) ∧
      (a.video_gcs_uri = none →
        (applyUpdate job a now).video_gcs_uri = job.video_gcs_uri) ∧
      (∀ v, a.video_gcs_uri = some v →
        (applyUpdate job a now).video_gcs_uri = v) ∧
      (a.error = none →
        (applyUpdate job a now).error = job.error) ∧
      (∀ v, a.error = some v →
        (applyUpdate job a now).error = v)) := by
  refine ⟨fun h => by simp [update_job, h], fun job hj => ?_⟩
  have e : update_job jobs job_id a now = .ok (fun k =>
      if k = job_id then some (applyUpdate job a now) else jobs k) := by
    simp [update_job, hj]
  exact ⟨fun k hk => by simp [storeAfter, e, hk],
    by simp [storeAfter, e],
    rfl, rfl, rfl, rfl, rfl, rfl, rfl,
    fun h => by simp [applyUpdate, h],
    fun h => by simp [applyUpdate, h],
    fun h => by simp [applyUpdate, h],
    fun h => by simp [applyUpdate, h],
    fun h => by simp [applyUpdate, h],
    fun v h => by simp [applyUpdate, h],
    fun h => by simp [applyUpdate, h],
    fun v h => by simp [applyUpdate, h],
    fun h => by simp [applyUpdate, h],
    fun v h => by simp [applyUpdate, h],
    fun h => by simp [applyUpdate, h],
    fun v h => by simp [applyUpdate, h],
    fun h => by simp [applyUpdate, h],
    fun v h => by simp [applyUpdate, h],
    fun h => by simp [applyUpdate, h],
    fun v h => by simp [applyUpdate, h],
    fun h => by simp [applyUpdate, h],
    fun v h => by simp [applyUpdate, h],
    fun h => by simp [applyUpdate, h],
    fun v h => by simp [applyUpdate, h],
    fun h => by simp [applyUpdate, h],
    fun v h => by simp [applyUpdate, h],
    fun h => by simp [applyUpdate, h],
    fun v h => by simp [applyUpdate, h],
    fun h => by simp [applyUpdate, h],
    fun v h => by simp [applyUpdate, h],
    fun h => by simp [applyUpdate, h],
    fun v h => by simp [applyUpdate, h],
    fun h => by simp [applyUpdate, h],
    fun v h => by simp [applyUpdate, h],
    fun h => by simp [applyUpdate, h],
    fun v h => by simp [applyUpdate, h],
    fun h => by simp [applyUpdate, h],
    fun v h => by simp [applyUpdate, h],
    fun h => by simp [applyUpdate, h],
    fun v h => by simp [applyUpdate, h],
    fun h => by simp [applyUpdate, h],
    fun v h => by simp [applyUpdate, h],
    fun h => by simp [applyUpdate, h],
    fun v h => by simp [applyUpdate, h],
    fun h => by simp [applyUpdate, h],
    fun v h => by simp [applyUpdate, h],
    fun h => by simp [applyUpdate, h],
    fun v h => by simp [applyUpdate, h],
    fun h => by simp [applyUpdate, h],
    fun v h => by simp [applyUpdate, h],
    fun h => by simp [applyUpdate, h],
    fun v h => by simp [applyUpdate, h],
    fun h => by simp [applyUpdate, h],
    fun v h => by simp [applyUpdate, h],
    fun h => by simp [applyUpdate, h],
    fun v h => by simp [applyUpdate, h],
    fun h => by simp [applyUpdate, h],
    fun v h => by simp [applyUpdate, h]⟩

/-- A stored job whose status is `done`, for C4's counterexample. -/
def doneStatusJob : JobRecord :=
  { create_job_record 0 with status := .str "done" }

/-- C4 counterexample: calling `update_job` with an explicitly null
`status` (`update_job(job_id, status=None)`) leaves the status `"done"`
instead of clearing it — only the update timestamp changes — because
`None` is the omission sentinel for `status`, not a clear request. -/
theorem update_job_explicit_null_status_counterexample :
    (storeAfter (update_job (singleStore "j" doneStatusJob) "j"
        { status := Json.null } 7) "j").map JobRecord.status =
      some (Json.str "done") ∧
    storeAfter (update_job (singleStore "j" doneStatusJob) "j"
        { status := Json.null } 7) "j" =
      some { doneStatusJob with updated_at := 7 } := by
  constructor <;> rfl

/-- Witness for C4's theorem: updating status and clearing the error on a
concrete one-job store changes those fields, stamps the timestamp, and
leaves other job ids alone. -/
theorem update_job_partial_update_frame_witness :
    storeAfter (update_job (singleStore "j" (create_job_record 0)) "j"
      { status := Json.str "failed", error := some Json.null } 5)
      "other" = none ∧
    (applyUpdate (create_job_record 0)
      { status := Json.str "failed", error := some Json.null } 5).status =
      Json.str "failed" ∧
    (applyUpdate (create_job_record 0)
      { status := Json.str "failed", error := some Json.null } 5).updated_at
      = 5 := by
  have h := (update_job_partial_update_frame
    (singleStore "j" (create_job_record 0)) "j"
    { status := Json.str "failed", error := some Json.null } 5).2
    (create_job_record 0) rfl
  obtain ⟨hframe, hid, hupd, hcre, hdeck, h41, h42, h43, h44, hs0, hs1,
    htail⟩ := h
  refine ⟨(hframe "other" (by decide)).trans rfl, hs1 (by decide), hupd⟩

end PitchCoach
